import Mathlib

/-
Verification development for the Inty Cascade API Python client
(src/cascade/cascade.py). The client is embedded shallowly: the
network is an oracle `net : Request → Response`, a Python dict that
is JSON-serialized becomes an association list of string keys and
JSON values, and Python exceptions become the `PyError` sum. Each
public method of the class `CascadeAPI` becomes a pure function
returning the request it sent (if construction got that far), the
result or error, and the (unchanged) client state.
-/

set_option autoImplicit false

namespace Cascade

/-- JSON values as sent in request bodies. -/
inductive JVal where
  | str : String → JVal
  | bool : Bool → JVal
  | int : Int → JVal
  | obj : List (String × JVal) → JVal
  | arr : List JVal → JVal

/-- An HTTP response: status code, raw body text, and the JSON parse of
the body when it is valid JSON (the oracle supplies it, standing for
`response.json()`). -/
structure Response where
  status : Nat
  body : String
  json : Option JVal

/-- Errors a client call can raise: `indexError` models Python's
IndexError from `endpoint[0]` on an empty string, `httpRequestError`
models `requests.exceptions.HTTPError` from `raise_for_status` and
carries the status code and raw body, `jsonDecodeError` models a
decode failure in `response.json()`. -/
inductive PyError where
  | indexError : PyError
  | httpRequestError : Nat → String → PyError
  | jsonDecodeError : PyError

/-- HTTP method of an outgoing request. -/
inductive Method where
  | get : Method
  | post : Method
  | delete : Method

/-- An outgoing HTTP request as the session issues it. -/
structure Request where
  method : Method
  url : String
  headers : List (String × String)
  params : List (String × String)
  body : Option JVal

/-- Client state: the session headers installed by `__init__`, the base
url, and whether construction switched global debug logging on. -/
structure CascadeAPI where
  headers : List (String × String)
  url : String
  debugLogging : Bool

/-- Lookup in a JSON object (association list), first match wins, as in
a Python dict with distinct keys. -/
def jlookup : List (String × JVal) → String → Option JVal
  | [], _ => none
  | (k, v) :: rest, key => if k = key then some v else jlookup rest key

/-- Lookup in a header list. -/
def hlookup : List (String × String) → String → Option String
  | [], _ => none
  | (k, v) :: rest, key => if k = key then some v else hlookup rest key

/-- Lines 42-44 (and the identical checks at 58-60 and 73-75): inspect
`endpoint[0]`; IndexError (`none`) on the empty string, otherwise
prepend a slash unless the first character already is one. -/
def normEndpoint (endpoint : String) : Option String :=
  match endpoint.data.head? with
  | none => none
  | some c => if c = '/' then some endpoint else some ("/" ++ endpoint)

/-- Line 48 (and 64, 79): `response.raise_for_status()`, which raises
`HTTPError` exactly for status codes 400-599. -/
def raiseForStatus (resp : Response) : Except PyError Response :=
  if 400 ≤ resp.status ∧ resp.status < 600 then
    Except.error (PyError.httpRequestError resp.status resp.body)
  else
    Except.ok resp

/-- The `.json()` call on a response. -/
def respJson (resp : Response) : Except PyError JVal :=
  match resp.json with
  | some v => Except.ok v
  | none => Except.error PyError.jsonDecodeError

namespace CascadeAPI

/-- Lines 29-33: the session headers and base url stored at
construction; `debug` only switches logging on (lines 21-27). -/
def init (username password url : String) (debug : Bool) : CascadeAPI :=
  { headers := [("X-Username", username), ("X-Password", password),
      ("Content-Type", "application/json; charset=utf-8")],
    url := url,
    debugLogging := debug }

/-- The GET request `__sendget` issues (lines 42-46), `none` when the
endpoint inspection raises IndexError. -/
def sendgetRequest (api : CascadeAPI) (endpoint : String)
    (params : List (String × String)) : Option Request :=
  (normEndpoint endpoint).map fun ep =>
    { method := Method.get, url := api.url ++ ep, headers := api.headers,
      params := params, body := none }

/-- Lines 35-49: `__sendget`. Returns the request sent (if any), the
response or error after `raise_for_status`, and the client state. -/
def sendget (api : CascadeAPI) (endpoint : String)
    (params : List (String × String)) (net : Request → Response) :
    Option Request × Except PyError Response × CascadeAPI :=
  match sendgetRequest api endpoint params with
  | none => (none, Except.error PyError.indexError, api)
  | some req => (some req, raiseForStatus (net req), api)

/-- The POST request `__sendpost` issues (lines 58-62). -/
def sendpostRequest (api : CascadeAPI) (endpoint : String)
    (data : Option JVal) : Option Request :=
  (normEndpoint endpoint).map fun ep =>
    { method := Method.post, url := api.url ++ ep, headers := api.headers,
      params := [], body := data }

/-- Lines 51-65: `__sendpost`. -/
def sendpost (api : CascadeAPI) (endpoint : String) (data : Option JVal)
    (net : Request → Response) :
    Option Request × Except PyError Response × CascadeAPI :=
  match sendpostRequest api endpoint data with
  | none => (none, Except.error PyError.indexError, api)
  | some req => (some req, raiseForStatus (net req), api)

/-- The DELETE request `__senddelete` issues (lines 73-77). -/
def senddeleteRequest (api : CascadeAPI) (endpoint : String) :
    Option Request :=
  (normEndpoint endpoint).map fun ep =>
    { method := Method.delete, url := api.url ++ ep, headers := api.headers,
      params := [], body := none }

/-- Lines 67-80: `__senddelete`. -/
def senddelete (api : CascadeAPI) (endpoint : String)
    (net : Request → Response) :
    Option Request × Except PyError Response × CascadeAPI :=
  match senddeleteRequest api endpoint with
  | none => (none, Except.error PyError.indexError, api)
  | some req => (some req, raiseForStatus (net req), api)

/-- Line 86: `get_all_customers`. -/
def get_all_customers (api : CascadeAPI) (net : Request → Response) :
    Option Request × Except PyError JVal × CascadeAPI :=
  let r := sendget api "/Customers" [] net
  (r.1, r.2.1.bind respJson, r.2.2)

/-- Line 94: `get_customer`. -/
def get_customer (api : CascadeAPI) (primarydomain : String)
    (net : Request → Response) :
    Option Request × Except PyError JVal × CascadeAPI :=
  let r := sendget api ("/Customers/" ++ primarydomain) [] net
  (r.1, r.2.1.bind respJson, r.2.2)

/-- Line 102: `get_customer_tenant`. -/
def get_customer_tenant (api : CascadeAPI) (primarydomain : String)
    (net : Request → Response) :
    Option Request × Except PyError JVal × CascadeAPI :=
  let r := sendget api
    ("/customers/" ++ primarydomain ++ "/MicrosoftTenantAssociation") [] net
  (r.1, r.2.1.bind respJson, r.2.2)

/-- Line 110: `get_customer_mca`. -/
def get_customer_mca (api : CascadeAPI) (primarydomain : String)
    (net : Request → Response) :
    Option Request × Except PyError JVal × CascadeAPI :=
  let r := sendget api
    ("/customers/" ++ primarydomain ++ "/McaAcceptance") [] net
  (r.1, r.2.1.bind respJson, r.2.2)

/-- Line 120: `get_customer_subscriptions`. -/
def get_customer_subscriptions (api : CascadeAPI) (primarydomain : String)
    (net : Request → Response) :
    Option Request × Except PyError JVal × CascadeAPI :=
  let r := sendget api
    ("/customers/" ++ primarydomain ++ "/subscriptions") [] net
  (r.1, r.2.1.bind respJson, r.2.2)

/-- Line 131: `get_customer_subscription`. -/
def get_customer_subscription (api : CascadeAPI)
    (primarydomain productcode : String) (net : Request → Response) :
    Option Request × Except PyError JVal × CascadeAPI :=
  let r := sendget api
    ("/customers/" ++ primarydomain ++ "/subscriptions/" ++ productcode)
    [] net
  (r.1, r.2.1.bind respJson, r.2.2)

/-- Line 142: `get_cancellation_request`. -/
def get_cancellation_request (api : CascadeAPI)
    (primarydomain productcode : String) (net : Request → Response) :
    Option Request × Except PyError JVal × CascadeAPI :=
  let r := sendget api
    ("/customers/" ++ primarydomain ++ "/subscriptions/" ++ productcode
      ++ "/cancellation-request") [] net
  (r.1, r.2.1.bind respJson, r.2.2)

/-- Lines 172-188: the dict `create_customer` builds; conditional keys
are appended in source order when the Python argument is truthy (a
non-empty string, dict or list respectively). -/
def create_customer_data (primarydomain customername reference : String)
    (head_office_address : List (String × JVal)) (isactive : Bool)
    (eu_vat_number iso_country_code admin_password : String)
    (billing_address : List (String × JVal)) (contacts : List JVal) :
    List (String × JVal) :=
  [("PrimaryDomain", JVal.str primarydomain),
   ("Name", JVal.str customername),
   ("Reference", JVal.str reference),
   ("IsActive", JVal.bool isactive),
   ("HeadOfficeAddress", JVal.obj head_office_address)]
  ++ (if eu_vat_number = "" then [] else
      [("EUVATNumber", JVal.str eu_vat_number)])
  ++ (if iso_country_code = "" then [] else
      [("IsoCountryCode", JVal.str iso_country_code)])
  ++ (if admin_password = "" then [] else
      [("AdministratorPassword", JVal.str admin_password)])
  ++ (match billing_address with
      | [] => []
      | _ => [("BillingAddress", JVal.obj billing_address)])
  ++ (match contacts with
      | [] => []
      | _ => [("Contacts", JVal.arr contacts)])

/-- Lines 144-189: `create_customer`. -/
def create_customer (api : CascadeAPI)
    (primarydomain customername reference : String)
    (head_office_address : List (String × JVal)) (isactive : Bool)
    (eu_vat_number iso_country_code admin_password : String)
    (billing_address : List (String × JVal)) (contacts : List JVal)
    (net : Request → Response) :
    Option Request × Except PyError Unit × CascadeAPI :=
  let r := sendpost api "/customers"
    (some (JVal.obj (create_customer_data primarydomain customername
      reference head_office_address isactive eu_vat_number
      iso_country_code admin_password billing_address contacts))) net
  (r.1, r.2.1.map fun _ => (), r.2.2)

/-- Line 201: `create_tenant`; no body is sent (`data` defaults to None). -/
def create_tenant (api : CascadeAPI) (customer tenantid : String)
    (net : Request → Response) :
    Option Request × Except PyError Unit × CascadeAPI :=
  let r := sendpost api
    ("/customers/" ++ customer ++ "/MicrosoftTenant/" ++ tenantid
      ++ ".onmicrosoft.com") none net
  (r.1, r.2.1.map fun _ => (), r.2.2)

/-- Line 224: `create_subscription`; the caller-supplied dict is the body. -/
def create_subscription (api : CascadeAPI) (customer : String)
    (productinformation : List (String × JVal)) (net : Request → Response) :
    Option Request × Except PyError Unit × CascadeAPI :=
  let r := sendpost api ("/customers/" ++ customer ++ "/subscriptions")
    (some (JVal.obj productinformation)) net
  (r.1, r.2.1.map fun _ => (), r.2.2)

/-- Line 235: `update_subscription`. -/
def update_subscription (api : CascadeAPI) (customer productcode : String)
    (newqty : Int) (net : Request → Response) :
    Option Request × Except PyError Unit × CascadeAPI :=
  let r := sendpost api
    ("/customers/" ++ customer ++ "/subscriptions/" ++ productcode)
    (some (JVal.obj [("Quantity", JVal.int newqty)])) net
  (r.1, r.2.1.map fun _ => (), r.2.2)

/-- Line 246: `upgrade_subscription`. -/
def upgrade_subscription (api : CascadeAPI)
    (customer oldproductcode newproductcode : String)
    (net : Request → Response) :
    Option Request × Except PyError Unit × CascadeAPI :=
  let r := sendpost api
    ("/customers/" ++ customer ++ "/subscriptions/" ++ oldproductcode)
    (some (JVal.obj [("ProductCode", JVal.str newproductcode)])) net
  (r.1, r.2.1.map fun _ => (), r.2.2)

/-- Line 256: `submit_cancellation_request`. -/
def submit_cancellation_request (api : CascadeAPI)
    (customer productcode daterequested : String)
    (net : Request → Response) :
    Option Request × Except PyError Unit × CascadeAPI :=
  let r := sendpost api
    ("/customers/" ++ customer ++ "/subscriptions/" ++ productcode
      ++ "/cancellation-request")
    (some (JVal.obj [("CancellationDateRequested",
      JVal.str daterequested)])) net
  (r.1, r.2.1.map fun _ => (), r.2.2)

/-- Line 265: `abort_cancellation_request`. -/
def abort_cancellation_request (api : CascadeAPI)
    (customer productcode : String) (net : Request → Response) :
    Option Request × Except PyError Unit × CascadeAPI :=
  let r := senddelete api
    ("/customers/" ++ customer ++ "/subscriptions/" ++ productcode
      ++ "/cancellation-request") net
  (r.1, r.2.1.map fun _ => (), r.2.2)

/-- Lines 290-300: the dict `accept_mca` builds. -/
def accept_mca_data
    (dateaccepted firstname surname phone email line1 postcode : String)
    (countryid : Int) : List (String × JVal) :=
  [("DateAccepted", JVal.str dateaccepted),
   ("FirstName", JVal.str firstname),
   ("Surname", JVal.str surname),
   ("PhoneNumber", JVal.str phone),
   ("EmailAddress", JVal.str email),
   ("AddressLine1", JVal.str line1),
   ("Postcode", JVal.str postcode),
   ("CountryId", JVal.int countryid),
   ("AgreementUrl", JVal.str "https://aka.ms/customeragreement")]

/-- Lines 267-301: `accept_mca`. -/
def accept_mca (api : CascadeAPI) (customer : String)
    (dateaccepted firstname surname phone email line1 postcode : String)
    (countryid : Int) (net : Request → Response) :
    Option Request × Except PyError Unit × CascadeAPI :=
  let r := sendpost api ("/customers/" ++ customer ++ "/McaAcceptance")
    (some (JVal.obj (accept_mca_data dateaccepted firstname surname
      phone email line1 postcode countryid))) net
  (r.1, r.2.1.map fun _ => (), r.2.2)

/-- Lines 303-324: `make_address`; a pure helper, `self` is unused. -/
def make_address (api : CascadeAPI)
    (line1 city postcode line2 state : String) : List (String × JVal) :=
  [("Line1", JVal.str line1),
   ("City", JVal.str city),
   ("Postcode", JVal.str postcode)]
  ++ (if line2 = "" then [] else [("Line2", JVal.str line2)])
  ++ (if state = "" then [] else [("State", JVal.str state)])

/-- Lines 326-345: `make_contact`; a pure helper, `self` is unused. -/
def make_contact (api : CascadeAPI)
    (firstname lastname email phone contacttype : String)
    (primary : Bool) : List (String × JVal) :=
  [("FirstName", JVal.str firstname),
   ("LastName", JVal.str lastname),
   ("EmailAddress", JVal.str email),
   ("PhoneNumber", JVal.str phone),
   ("ContactType", JVal.str contacttype),
   ("IsPrimaryContact", JVal.bool primary)]

end CascadeAPI

/-- A fixed example client used by concrete witnesses. -/
def apiEx : CascadeAPI :=
  CascadeAPI.init "alice" "hunter2" "https://api.example" false

/-- A network oracle that answers 304 Not Modified to everything. -/
def net304 : Request → Response :=
  fun _ => { status := 304, body := "not modified", json := none }

/-- A network oracle that answers 404 Not Found to everything. -/
def netEx404 : Request → Response :=
  fun _ => { status := 404, body := "not found", json := none }

/-- The GET request `apiEx` sends for endpoint "/x". -/
def reqGet404 : Request :=
  { method := Method.get, url := apiEx.url ++ "/x", headers := apiEx.headers,
    params := [], body := none }

/-- The bodyless POST request `apiEx` sends for endpoint "/x". -/
def reqPost404 : Request :=
  { method := Method.post, url := apiEx.url ++ "/x", headers := apiEx.headers,
    params := [], body := none }

/-- The DELETE request `apiEx` sends for endpoint "/x". -/
def reqDel404 : Request :=
  { method := Method.delete, url := apiEx.url ++ "/x", headers := apiEx.headers,
    params := [], body := none }

open CascadeAPI

theorem head_slash_append (a b : String) (h : a.data.head? = some '/') :
    (a ++ b).data.head? = some '/' := by
  rw [String.data_append a b]
  cases ha : a.data with
  | nil => rw [ha] at h; simp at h
  | cons c cs => rw [ha] at h; simp at h; simp [ha, h]

theorem norm_of_slash (s : String) (h : s.data.head? = some '/') :
    normEndpoint s = some s := by
  unfold normEndpoint
  rw [h]
  simp

theorem norm_of_not_slash (s : String) (h : s.data ≠ [])
    (h2 : s.data.head? ≠ some '/') : normEndpoint s = some ("/" ++ s) := by
  unfold normEndpoint
  cases hs : s.data.head? with
  | none => exact absurd (by simpa using hs) h
  | some c =>
    simp only []
    rw [if_neg]
    intro hc
    exact h2 (hs.trans (by rw [hc]))

theorem sendget_fst (api : CascadeAPI) (ep : String)
    (params : List (String × String)) (net : Request → Response) :
    (sendget api ep params net).1 = sendgetRequest api ep params := by
  unfold sendget
  cases sendgetRequest api ep params <;> rfl

theorem sendpost_fst (api : CascadeAPI) (ep : String) (data : Option JVal)
    (net : Request → Response) :
    (sendpost api ep data net).1 = sendpostRequest api ep data := by
  unfold sendpost
  cases sendpostRequest api ep data <;> rfl

theorem senddelete_fst (api : CascadeAPI) (ep : String)
    (net : Request → Response) :
    (senddelete api ep net).1 = senddeleteRequest api ep := by
  unfold senddelete
  cases senddeleteRequest api ep <;> rfl

theorem sendget_state (api : CascadeAPI) (ep : String)
    (params : List (String × String)) (net : Request → Response) :
    (sendget api ep params net).2.2 = api := by
  unfold sendget
  cases sendgetRequest api ep params <;> rfl

theorem sendpost_state (api : CascadeAPI) (ep : String) (data : Option JVal)
    (net : Request → Response) :
    (sendpost api ep data net).2.2 = api := by
  unfold sendpost
  cases sendpostRequest api ep data <;> rfl

theorem senddelete_state (api : CascadeAPI) (ep : String)
    (net : Request → Response) :
    (senddelete api ep net).2.2 = api := by
  unfold senddelete
  cases senddeleteRequest api ep <;> rfl

theorem sendgetRequest_headers (api : CascadeAPI) (ep : String)
    (params : List (String × String)) (r : Request)
    (h : sendgetRequest api ep params = some r) : r.headers = api.headers := by
  unfold sendgetRequest at h
  cases hn : normEndpoint ep <;> rw [hn] at h <;> simp at h
  rw [← h]

theorem sendpostRequest_headers (api : CascadeAPI) (ep : String)
    (data : Option JVal) (r : Request)
    (h : sendpostRequest api ep data = some r) : r.headers = api.headers := by
  unfold sendpostRequest at h
  cases hn : normEndpoint ep <;> rw [hn] at h <;> simp at h
  rw [← h]

theorem senddeleteRequest_headers (api : CascadeAPI) (ep : String)
    (r : Request) (h : senddeleteRequest api ep = some r) :
    r.headers = api.headers := by
  unfold senddeleteRequest at h
  cases hn : normEndpoint ep <;> rw [hn] at h <;> simp at h
  rw [← h]

theorem norm_append (a b : String) (h : a.data.head? = some '/') :
    normEndpoint (a ++ b) = some (a ++ b) :=
  norm_of_slash _ (head_slash_append a b h)

theorem head_Customers_of (d : String) :
    ("/Customers/" ++ d).data.head? = some '/' :=
  head_slash_append "/Customers/" d rfl

theorem head_customers_of (d : String) :
    ("/customers/" ++ d).data.head? = some '/' :=
  head_slash_append "/customers/" d rfl

theorem head_tenant_assoc (d : String) :
    ("/customers/" ++ d ++ "/MicrosoftTenantAssociation").data.head? =
      some '/' :=
  head_slash_append _ _ (head_customers_of d)

theorem head_mca_of (d : String) :
    ("/customers/" ++ d ++ "/McaAcceptance").data.head? = some '/' :=
  head_slash_append _ _ (head_customers_of d)

theorem head_subs_of (d : String) :
    ("/customers/" ++ d ++ "/subscriptions").data.head? = some '/' :=
  head_slash_append _ _ (head_customers_of d)

theorem head_sub_of (d pc : String) :
    ("/customers/" ++ d ++ "/subscriptions/" ++ pc).data.head? = some '/' :=
  head_slash_append _ _ (head_slash_append _ _ (head_customers_of d))

theorem head_cancel_of (d pc : String) :
    ("/customers/" ++ d ++ "/subscriptions/" ++ pc
      ++ "/cancellation-request").data.head? = some '/' :=
  head_slash_append _ _ (head_sub_of d pc)

theorem head_tenant_create (c t : String) :
    ("/customers/" ++ c ++ "/MicrosoftTenant/" ++ t
      ++ ".onmicrosoft.com").data.head? = some '/' :=
  head_slash_append _ _
    (head_slash_append _ _ (head_customers_of c))

theorem norm_Customers : normEndpoint "/Customers" = some "/Customers" := rfl

theorem norm_customers : normEndpoint "/customers" = some "/customers" := rfl

theorem norm_Customers_of (d : String) :
    normEndpoint ("/Customers/" ++ d) = some ("/Customers/" ++ d) :=
  norm_of_slash _ (head_Customers_of d)

theorem norm_tenant_assoc (d : String) :
    normEndpoint ("/customers/" ++ d ++ "/MicrosoftTenantAssociation") =
      some ("/customers/" ++ d ++ "/MicrosoftTenantAssociation") :=
  norm_of_slash _ (head_tenant_assoc d)

theorem norm_mca_of (d : String) :
    normEndpoint ("/customers/" ++ d ++ "/McaAcceptance") =
      some ("/customers/" ++ d ++ "/McaAcceptance") :=
  norm_of_slash _ (head_mca_of d)

theorem norm_subs_of (d : String) :
    normEndpoint ("/customers/" ++ d ++ "/subscriptions") =
      some ("/customers/" ++ d ++ "/subscriptions") :=
  norm_of_slash _ (head_subs_of d)

theorem norm_sub_of (d pc : String) :
    normEndpoint ("/customers/" ++ d ++ "/subscriptions/" ++ pc) =
      some ("/customers/" ++ d ++ "/subscriptions/" ++ pc) :=
  norm_of_slash _ (head_sub_of d pc)

theorem norm_cancel_of (d pc : String) :
    normEndpoint ("/customers/" ++ d ++ "/subscriptions/" ++ pc
        ++ "/cancellation-request") =
      some ("/customers/" ++ d ++ "/subscriptions/" ++ pc
        ++ "/cancellation-request") :=
  norm_of_slash _ (head_cancel_of d pc)

theorem norm_tenant_create (c t : String) :
    normEndpoint ("/customers/" ++ c ++ "/MicrosoftTenant/" ++ t
        ++ ".onmicrosoft.com") =
      some ("/customers/" ++ c ++ "/MicrosoftTenant/" ++ t
        ++ ".onmicrosoft.com") :=
  norm_of_slash _ (head_tenant_create c t)

/-- Claim C8: `make_contact` returns exactly the six-key dictionary
mapping FirstName, LastName, EmailAddress, PhoneNumber, ContactType and
IsPrimaryContact to its arguments; it takes no network oracle, so it
performs no network activity. -/
theorem c8_make_contact_exact (api : CascadeAPI)
    (firstname lastname email phone contacttype : String) (primary : Bool) :
    make_contact api firstname lastname email phone contacttype primary =
      [("FirstName", JVal.str firstname),
       ("LastName", JVal.str lastname),
       ("EmailAddress", JVal.str email),
       ("PhoneNumber", JVal.str phone),
       ("ContactType", JVal.str contacttype),
       ("IsPrimaryContact", JVal.bool primary)] := rfl

/-- Claim C7: `make_address` with empty line2 and state returns exactly
the three-key dictionary Line1/City/Postcode; a non-empty line2 adds
exactly the key Line2 with that value, and a non-empty state adds
exactly the key State with that value. -/
theorem c7_make_address_optional_keys (api : CascadeAPI)
    (line1 city postcode line2 state : String) :
    make_address api line1 city postcode "" "" =
      [("Line1", JVal.str line1), ("City", JVal.str city),
       ("Postcode", JVal.str postcode)]
    ∧ (line2 ≠ "" →
        make_address api line1 city postcode line2 "" =
          [("Line1", JVal.str line1), ("City", JVal.str city),
           ("Postcode", JVal.str postcode)]
          ++ [("Line2", JVal.str line2)])
    ∧ (state ≠ "" →
        make_address api line1 city postcode "" state =
          [("Line1", JVal.str line1), ("City", JVal.str city),
           ("Postcode", JVal.str postcode)]
          ++ [("State", JVal.str state)]) := by
  refine ⟨rfl, fun h => ?_, fun h => ?_⟩ <;> simp [make_address, h]

/-- Claim C7 witness: the concrete instance from the spec, with
line2 set to "Suite 5". -/
theorem c7_make_address_optional_keys_witness :
    ("Suite 5" : String) ≠ ""
    ∧ make_address apiEx "1 Main St" "London" "AB1 2CD" "Suite 5" "" =
        [("Line1", JVal.str "1 Main St"), ("City", JVal.str "London"),
         ("Postcode", JVal.str "AB1 2CD")]
        ++ [("Line2", JVal.str "Suite 5")] :=
  ⟨by decide,
   (c7_make_address_optional_keys apiEx "1 Main St" "London" "AB1 2CD"
     "Suite 5" "x").2.1 (by decide)⟩

/-- Claim C5: `accept_mca` always POSTs to /customers/{customer}/McaAcceptance
a body whose AgreementUrl field is the fixed constant, and whose other
eight fields are the arguments verbatim. -/
theorem c5_accept_mca_fields (api : CascadeAPI) (customer : String)
    (dateaccepted firstname surname phone email line1 postcode : String)
    (countryid : Int) (net : Request → Response) :
    (accept_mca api customer dateaccepted firstname surname phone email
        line1 postcode countryid net).1 =
      some { method := Method.post,
             url := api.url ++ ("/customers/" ++ customer ++ "/McaAcceptance"),
             headers := api.headers, params := [],
             body := some (JVal.obj (accept_mca_data dateaccepted firstname
               surname phone email line1 postcode countryid)) }
    ∧ jlookup (accept_mca_data dateaccepted firstname surname phone email
        line1 postcode countryid) "AgreementUrl" =
        some (JVal.str "https://aka.ms/customeragreement")
    ∧ jlookup (accept_mca_data dateaccepted firstname surname phone email
        line1 postcode countryid) "DateAccepted" =
        some (JVal.str dateaccepted)
    ∧ jlookup (accept_mca_data dateaccepted firstname surname phone email
        line1 postcode countryid) "FirstName" = some (JVal.str firstname)
    ∧ jlookup (accept_mca_data dateaccepted firstname surname phone email
        line1 postcode countryid) "Surname" = some (JVal.str surname)
    ∧ jlookup (accept_mca_data dateaccepted firstname surname phone email
        line1 postcode countryid) "PhoneNumber" = some (JVal.str phone)
    ∧ jlookup (accept_mca_data dateaccepted firstname surname phone email
        line1 postcode countryid) "EmailAddress" = some (JVal.str email)
    ∧ jlookup (accept_mca_data dateaccepted firstname surname phone email
        line1 postcode countryid) "AddressLine1" = some (JVal.str line1)
    ∧ jlookup (accept_mca_data dateaccepted firstname surname phone email
        line1 postcode countryid) "Postcode" = some (JVal.str postcode)
    ∧ jlookup (accept_mca_data dateaccepted firstname surname phone email
        line1 postcode countryid) "CountryId" = some (JVal.int countryid) := by
  have hn : normEndpoint ("/customers/" ++ customer ++ "/McaAcceptance") =
      some ("/customers/" ++ customer ++ "/McaAcceptance") :=
    norm_append _ _ (head_slash_append "/customers/" customer rfl)
  refine ⟨?_, rfl, rfl, rfl, rfl, rfl, rfl, rfl, rfl, rfl⟩
  simp [accept_mca, sendpost_fst, sendpostRequest, hn]

/-- Claim C1 counterexample: HTTP 304 is not a 2xx status, yet the GET
helper returns the response without raising any error, because
`raise_for_status` only raises for statuses 400-599. -/
theorem c1_counterexample_304 :
    ¬ (200 ≤ 304 ∧ 304 < 300)
    ∧ (sendget apiEx "/x" [] net304).2.1 =
        Except.ok { status := 304, body := "not modified", json := none } :=
  ⟨by decide, rfl⟩

/-- Claim C1 (amended): for every request actually sent by one of the
three helpers, the call raises `httpRequestError` carrying the response
status and raw body exactly when the status is in 400-599: a status in
400-599 raises it, and any status outside 400-599 (so in particular any
2xx, and also 1xx/3xx statuses) raises no error and returns the
response; in particular a 404 response raises `httpRequestError 404`
with the body attached, on each of the GET, POST and DELETE paths. -/
theorem c1_error_policy (api : CascadeAPI) (ep : String)
    (params : List (String × String)) (data : Option JVal)
    (net : Request → Response) (req : Request) :
    ((sendget api ep params net).1 = some req →
      ((400 ≤ (net req).status ∧ (net req).status < 600 →
        (sendget api ep params net).2.1 =
          Except.error (PyError.httpRequestError (net req).status
            (net req).body))
      ∧ (200 ≤ (net req).status ∧ (net req).status < 300 →
        (sendget api ep params net).2.1 = Except.ok (net req))
      ∧ ((net req).status = 404 →
        (sendget api ep params net).2.1 =
          Except.error (PyError.httpRequestError 404 (net req).body))
      ∧ (¬ (400 ≤ (net req).status ∧ (net req).status < 600) →
        (sendget api ep params net).2.1 = Except.ok (net req))))
    ∧ ((sendpost api ep data net).1 = some req →
      ((400 ≤ (net req).status ∧ (net req).status < 600 →
        (sendpost api ep data net).2.1 =
          Except.error (PyError.httpRequestError (net req).status
            (net req).body))
      ∧ (200 ≤ (net req).status ∧ (net req).status < 300 →
        (sendpost api ep data net).2.1 = Except.ok (net req))
      ∧ ((net req).status = 404 →
        (sendpost api ep data net).2.1 =
          Except.error (PyError.httpRequestError 404 (net req).body))
      ∧ (¬ (400 ≤ (net req).status ∧ (net req).status < 600) →
        (sendpost api ep data net).2.1 = Except.ok (net req))))
    ∧ ((senddelete api ep net).1 = some req →
      ((400 ≤ (net req).status ∧ (net req).status < 600 →
        (senddelete api ep net).2.1 =
          Except.error (PyError.httpRequestError (net req).status
            (net req).body))
      ∧ (200 ≤ (net req).status ∧ (net req).status < 300 →
        (senddelete api ep net).2.1 = Except.ok (net req))
      ∧ ((net req).status = 404 →
        (senddelete api ep net).2.1 =
          Except.error (PyError.httpRequestError 404 (net req).body))
      ∧ (¬ (400 ≤ (net req).status ∧ (net req).status < 600) →
        (senddelete api ep net).2.1 = Except.ok (net req)))) := by
  refine ⟨fun h => ?_, fun h => ?_, fun h => ?_⟩
  · rw [sendget_fst] at h
    unfold sendget
    rw [h]
    refine ⟨fun hc => ?_, fun hc => ?_, fun hc => ?_, fun hc => ?_⟩
    · simp [raiseForStatus, hc]
    · have : ¬ (400 ≤ (net req).status ∧ (net req).status < 600) := by omega
      simp [raiseForStatus, this]
    · have : 400 ≤ (net req).status ∧ (net req).status < 600 := by omega
      simp [raiseForStatus, this, hc]
    · simp [raiseForStatus, hc]
  · rw [sendpost_fst] at h
    unfold sendpost
    rw [h]
    refine ⟨fun hc => ?_, fun hc => ?_, fun hc => ?_, fun hc => ?_⟩
    · simp [raiseForStatus, hc]
    · have : ¬ (400 ≤ (net req).status ∧ (net req).status < 600) := by omega
      simp [raiseForStatus, this]
    · have : 400 ≤ (net req).status ∧ (net req).status < 600 := by omega
      simp [raiseForStatus, this, hc]
    · simp [raiseForStatus, hc]
  · rw [senddelete_fst] at h
    unfold senddelete
    rw [h]
    refine ⟨fun hc => ?_, fun hc => ?_, fun hc => ?_, fun hc => ?_⟩
    · simp [raiseForStatus, hc]
    · have : ¬ (400 ≤ (net req).status ∧ (net req).status < 600) := by omega
      simp [raiseForStatus, this]
    · have : 400 ≤ (net req).status ∧ (net req).status < 600 := by omega
      simp [raiseForStatus, this, hc]
    · simp [raiseForStatus, hc]

/-- Claim C1 witness: a 404 answer raises `httpRequestError 404` with
the body "not found" on each of the GET, POST and DELETE paths of the
concrete client `apiEx`, while a 304 answer (outside 400-599) raises
nothing and hands the response back on each of the three paths. -/
theorem c1_error_policy_witness :
    (sendget apiEx "/x" [] netEx404).2.1 =
      Except.error (PyError.httpRequestError 404 "not found")
    ∧ (sendpost apiEx "/x" none netEx404).2.1 =
      Except.error (PyError.httpRequestError 404 "not found")
    ∧ (senddelete apiEx "/x" netEx404).2.1 =
      Except.error (PyError.httpRequestError 404 "not found")
    ∧ (sendget apiEx "/x" [] net304).2.1 =
      Except.ok { status := 304, body := "not modified", json := none }
    ∧ (sendpost apiEx "/x" none net304).2.1 =
      Except.ok { status := 304, body := "not modified", json := none }
    ∧ (senddelete apiEx "/x" net304).2.1 =
      Except.ok { status := 304, body := "not modified", json := none } :=
  ⟨((c1_error_policy apiEx "/x" [] none netEx404 reqGet404).1 rfl).2.2.1 rfl,
   ((c1_error_policy apiEx "/x" [] none netEx404 reqPost404).2.1
     rfl).2.2.1 rfl,
   ((c1_error_policy apiEx "/x" [] none netEx404 reqDel404).2.2
     rfl).2.2.1 rfl,
   ((c1_error_policy apiEx "/x" [] none net304 reqGet404).1
     rfl).2.2.2 (by decide),
   ((c1_error_policy apiEx "/x" [] none net304 reqPost404).2.1
     rfl).2.2.2 (by decide),
   ((c1_error_policy apiEx "/x" [] none net304 reqDel404).2.2
     rfl).2.2.2 (by decide)⟩

/-- Claim C2 counterexample: the empty endpoint string does not start
with '/', yet the constructed path is not '/' + "" — inspecting the
first character raises IndexError instead, so no request is built at
all. -/
theorem c2_counterexample_empty :
    "".data.head? ≠ some '/'
    ∧ normEndpoint "" ≠ some ("/" ++ "")
    ∧ normEndpoint "" = none
    ∧ sendgetRequest apiEx "" [] = none
    ∧ (sendget apiEx "" [] net304).2.1 = Except.error PyError.indexError :=
  ⟨by decide, by decide, rfl, rfl, rfl⟩

/-- Claim C2 (amended): for every NON-EMPTY endpoint string, if it does
not start with '/' the normalized path is '/' + endpoint, if it already
starts with '/' it is unchanged, the normalization is idempotent, and
each of the three helpers builds its request url as the base url
followed by the normalized endpoint. On the empty string the helpers
raise IndexError instead. -/
theorem c2_normalization (s : String) (h : s.data ≠ []) :
    (s.data.head? ≠ some '/' → normEndpoint s = some ("/" ++ s))
    ∧ (s.data.head? = some '/' → normEndpoint s = some s)
    ∧ (∀ t, normEndpoint s = some t → normEndpoint t = some t)
    ∧ (∀ api params, (sendgetRequest api s params).map Request.url =
        (normEndpoint s).map fun e => api.url ++ e)
    ∧ (∀ api data, (sendpostRequest api s data).map Request.url =
        (normEndpoint s).map fun e => api.url ++ e)
    ∧ (∀ api, (senddeleteRequest api s).map Request.url =
        (normEndpoint s).map fun e => api.url ++ e) := by
  refine ⟨fun h2 => norm_of_not_slash s h h2, fun h2 => norm_of_slash s h2,
    fun t ht => ?_, fun api params => ?_, fun api data => ?_, fun api => ?_⟩
  · cases hs : s.data.head? with
    | none =>
      exact absurd (by simpa using hs) h
    | some c =>
      unfold normEndpoint at ht
      rw [hs] at ht
      have ht' : (if c = '/' then some s else some ("/" ++ s)) = some t := ht
      by_cases hc : c = '/'
      · rw [if_pos hc] at ht'
        cases ht'
        exact norm_of_slash s (hs.trans (by rw [hc]))
      · rw [if_neg hc] at ht'
        cases ht'
        exact norm_of_slash _ (head_slash_append "/" s rfl)
  · unfold sendgetRequest
    cases normEndpoint s <;> rfl
  · unfold sendpostRequest
    cases normEndpoint s <;> rfl
  · unfold senddeleteRequest
    cases normEndpoint s <;> rfl

/-- Claim C2 witness: the endpoint "Customers" is non-empty and does
not start with '/', and is normalized to "/Customers"; the already
slashed "/Customers" is left unchanged. -/
theorem c2_normalization_witness :
    normEndpoint "Customers" = some ("/" ++ "Customers")
    ∧ normEndpoint "/Customers" = some "/Customers" :=
  ⟨(c2_normalization "Customers" (by decide)).1 (by decide),
   (c2_normalization "/Customers" (by decide)).2.1 (by decide)⟩

/-- Claim C4: `create_customer` POSTs to /customers a body in which
PrimaryDomain, Name, Reference, IsActive and HeadOfficeAddress are
always present with the arguments verbatim, while each of EUVATNumber,
IsoCountryCode, AdministratorPassword, BillingAddress and Contacts is
present with the argument verbatim exactly when that argument is
non-empty, and absent when it is empty/falsy. -/
theorem c4_create_customer_body (api : CascadeAPI)
    (primarydomain customername reference : String)
    (head_office_address : List (String × JVal)) (isactive : Bool)
    (eu_vat_number iso_country_code admin_password : String)
    (billing_address : List (String × JVal)) (contacts : List JVal)
    (net : Request → Response) :
    (create_customer api primarydomain customername reference
        head_office_address isactive eu_vat_number iso_country_code
        admin_password billing_address contacts net).1 =
      some { method := Method.post, url := api.url ++ "/customers",
             headers := api.headers, params := [],
             body := some (JVal.obj (create_customer_data primarydomain
               customername reference head_office_address isactive
               eu_vat_number iso_country_code admin_password
               billing_address contacts)) }
    ∧ jlookup (create_customer_data primarydomain customername reference
        head_office_address isactive eu_vat_number iso_country_code
        admin_password billing_address contacts) "PrimaryDomain" =
        some (JVal.str primarydomain)
    ∧ jlookup (create_customer_data primarydomain customername reference
        head_office_address isactive eu_vat_number iso_country_code
        admin_password billing_address contacts) "Name" =
        some (JVal.str customername)
    ∧ jlookup (create_customer_data primarydomain customername reference
        head_office_address isactive eu_vat_number iso_country_code
        admin_password billing_address contacts) "Reference" =
        some (JVal.str reference)
    ∧ jlookup (create_customer_data primarydomain customername reference
        head_office_address isactive eu_vat_number iso_country_code
        admin_password billing_address contacts) "IsActive" =
        some (JVal.bool isactive)
    ∧ jlookup (create_customer_data primarydomain customername reference
        head_office_address isactive eu_vat_number iso_country_code
        admin_password billing_address contacts) "HeadOfficeAddress" =
        some (JVal.obj head_office_address)
    ∧ jlookup (create_customer_data primarydomain customername reference
        head_office_address isactive eu_vat_number iso_country_code
        admin_password billing_address contacts) "EUVATNumber" =
        (if eu_vat_number = "" then none else some (JVal.str eu_vat_number))
    ∧ jlookup (create_customer_data primarydomain customername reference
        head_office_address isactive eu_vat_number iso_country_code
        admin_password billing_address contacts) "IsoCountryCode" =
        (if iso_country_code = "" then none
         else some (JVal.str iso_country_code))
    ∧ jlookup (create_customer_data primarydomain customername reference
        head_office_address isactive eu_vat_number iso_country_code
        admin_password billing_address contacts) "AdministratorPassword" =
        (if admin_password = "" then none
         else some (JVal.str admin_password))
    ∧ jlookup (create_customer_data primarydomain customername reference
        head_office_address isactive eu_vat_number iso_country_code
        admin_password billing_address contacts) "BillingAddress" =
        (match billing_address with
         | [] => none
         | _ => some (JVal.obj billing_address))
    ∧ jlookup (create_customer_data primarydomain customername reference
        head_office_address isactive eu_vat_number iso_country_code
        admin_password billing_address contacts) "Contacts" =
        (match contacts with
         | [] => none
         | _ => some (JVal.arr contacts)) := by
  have hn : normEndpoint "/customers" = some "/customers" := rfl
  refine ⟨?_, ?_, ?_, ?_, ?_, ?_, ?_, ?_, ?_, ?_, ?_⟩
  · simp [create_customer, sendpost_fst, sendpostRequest, hn]
  all_goals
    by_cases h1 : eu_vat_number = "" <;>
    by_cases h2 : iso_country_code = "" <;>
    by_cases h3 : admin_password = "" <;>
    cases billing_address <;>
    cases contacts <;>
    simp [create_customer_data, jlookup, h1, h2, h3]

/-- Claim C3: for a client built from username u and password p, every
request issued by any public method, for any arguments, carries exactly
the session headers installed at construction, and those headers map
X-Username to u, X-Password to p and Content-Type to
"application/json; charset=utf-8". -/
theorem c3_fixed_headers (u p bu : String) (dbg : Bool)
    (net : Request → Response) (d pc cust tid oldpc newpc dreq : String)
    (pinfo : List (String × JVal)) (qty : Int)
    (pd cn rf : String) (hoa : List (String × JVal)) (ia : Bool)
    (eu iso ap : String) (ba : List (String × JVal)) (cs : List JVal)
    (dacc fn sn ph em l1 pcde : String) (cid : Int) :
    hlookup (CascadeAPI.init u p bu dbg).headers "X-Username" = some u
    ∧ hlookup (CascadeAPI.init u p bu dbg).headers "X-Password" = some p
    ∧ hlookup (CascadeAPI.init u p bu dbg).headers "Content-Type" =
        some "application/json; charset=utf-8"
    ∧ (get_all_customers (CascadeAPI.init u p bu dbg) net).1.map
        Request.headers = some (CascadeAPI.init u p bu dbg).headers
    ∧ (get_customer (CascadeAPI.init u p bu dbg) d net).1.map
        Request.headers = some (CascadeAPI.init u p bu dbg).headers
    ∧ (get_customer_tenant (CascadeAPI.init u p bu dbg) d net).1.map
        Request.headers = some (CascadeAPI.init u p bu dbg).headers
    ∧ (get_customer_mca (CascadeAPI.init u p bu dbg) d net).1.map
        Request.headers = some (CascadeAPI.init u p bu dbg).headers
    ∧ (get_customer_subscriptions (CascadeAPI.init u p bu dbg) d net).1.map
        Request.headers = some (CascadeAPI.init u p bu dbg).headers
    ∧ (get_customer_subscription (CascadeAPI.init u p bu dbg) d pc
        net).1.map Request.headers = some (CascadeAPI.init u p bu dbg).headers
    ∧ (get_cancellation_request (CascadeAPI.init u p bu dbg) d pc
        net).1.map Request.headers = some (CascadeAPI.init u p bu dbg).headers
    ∧ (create_customer (CascadeAPI.init u p bu dbg) pd cn rf hoa ia eu iso
        ap ba cs net).1.map Request.headers =
        some (CascadeAPI.init u p bu dbg).headers
    ∧ (create_tenant (CascadeAPI.init u p bu dbg) cust tid net).1.map
        Request.headers = some (CascadeAPI.init u p bu dbg).headers
    ∧ (create_subscription (CascadeAPI.init u p bu dbg) cust pinfo
        net).1.map Request.headers = some (CascadeAPI.init u p bu dbg).headers
    ∧ (update_subscription (CascadeAPI.init u p bu dbg) cust pc qty
        net).1.map Request.headers = some (CascadeAPI.init u p bu dbg).headers
    ∧ (upgrade_subscription (CascadeAPI.init u p bu dbg) cust oldpc newpc
        net).1.map Request.headers = some (CascadeAPI.init u p bu dbg).headers
    ∧ (submit_cancellation_request (CascadeAPI.init u p bu dbg) cust pc
        dreq net).1.map Request.headers =
        some (CascadeAPI.init u p bu dbg).headers
    ∧ (abort_cancellation_request (CascadeAPI.init u p bu dbg) cust pc
        net).1.map Request.headers = some (CascadeAPI.init u p bu dbg).headers
    ∧ (accept_mca (CascadeAPI.init u p bu dbg) cust dacc fn sn ph em l1
        pcde cid net).1.map Request.headers =
        some (CascadeAPI.init u p bu dbg).headers := by
  refine ⟨rfl, rfl, rfl, ?_, ?_, ?_, ?_, ?_, ?_, ?_, ?_, ?_, ?_, ?_, ?_,
    ?_, ?_, ?_⟩
  · simp [get_all_customers, sendget_fst, sendgetRequest, norm_Customers]
  · simp [get_customer, sendget_fst, sendgetRequest, norm_Customers_of]
  · simp [get_customer_tenant, sendget_fst, sendgetRequest,
      norm_tenant_assoc]
  · simp [get_customer_mca, sendget_fst, sendgetRequest, norm_mca_of]
  · simp [get_customer_subscriptions, sendget_fst, sendgetRequest,
      norm_subs_of]
  · simp [get_customer_subscription, sendget_fst, sendgetRequest,
      norm_sub_of]
  · simp [get_cancellation_request, sendget_fst, sendgetRequest,
      norm_cancel_of]
  · simp [create_customer, sendpost_fst, sendpostRequest, norm_customers]
  · simp [create_tenant, sendpost_fst, sendpostRequest, norm_tenant_create]
  · simp [create_subscription, sendpost_fst, sendpostRequest, norm_subs_of]
  · simp [update_subscription, sendpost_fst, sendpostRequest, norm_sub_of]
  · simp [upgrade_subscription, sendpost_fst, sendpostRequest, norm_sub_of]
  · simp [submit_cancellation_request, sendpost_fst, sendpostRequest,
      norm_cancel_of]
  · simp [abort_cancellation_request, senddelete_fst, senddeleteRequest,
      norm_cancel_of]
  · simp [accept_mca, sendpost_fst, sendpostRequest, norm_mca_of]

/-- Claim C9: the client configuration (headers and base url) is never
changed by any public operation: whether the operation succeeds or
raises, the client state it hands back is exactly the state it was
given. -/
theorem c9_config_immutable (api : CascadeAPI) (net : Request → Response)
    (d pc cust tid oldpc newpc dreq : String)
    (pinfo : List (String × JVal)) (qty : Int)
    (pd cn rf : String) (hoa : List (String × JVal)) (ia : Bool)
    (eu iso ap : String) (ba : List (String × JVal)) (cs : List JVal)
    (dacc fn sn ph em l1 pcde : String) (cid : Int) :
    (get_all_customers api net).2.2 = api
    ∧ (get_customer api d net).2.2 = api
    ∧ (get_customer_tenant api d net).2.2 = api
    ∧ (get_customer_mca api d net).2.2 = api
    ∧ (get_customer_subscriptions api d net).2.2 = api
    ∧ (get_customer_subscription api d pc net).2.2 = api
    ∧ (get_cancellation_request api d pc net).2.2 = api
    ∧ (create_customer api pd cn rf hoa ia eu iso ap ba cs net).2.2 = api
    ∧ (create_tenant api cust tid net).2.2 = api
    ∧ (create_subscription api cust pinfo net).2.2 = api
    ∧ (update_subscription api cust pc qty net).2.2 = api
    ∧ (upgrade_subscription api cust oldpc newpc net).2.2 = api
    ∧ (submit_cancellation_request api cust pc dreq net).2.2 = api
    ∧ (abort_cancellation_request api cust pc net).2.2 = api
    ∧ (accept_mca api cust dacc fn sn ph em l1 pcde cid net).2.2 = api := by
  refine ⟨?_, ?_, ?_, ?_, ?_, ?_, ?_, ?_, ?_, ?_, ?_, ?_, ?_, ?_, ?_⟩
  · simp [get_all_customers, sendget_state]
  · simp [get_customer, sendget_state]
  · simp [get_customer_tenant, sendget_state]
  · simp [get_customer_mca, sendget_state]
  · simp [get_customer_subscriptions, sendget_state]
  · simp [get_customer_subscription, sendget_state]
  · simp [get_cancellation_request, sendget_state]
  · simp [create_customer, sendpost_state]
  · simp [create_tenant, sendpost_state]
  · simp [create_subscription, sendpost_state]
  · simp [update_subscription, sendpost_state]
  · simp [upgrade_subscription, sendpost_state]
  · simp [submit_cancellation_request, sendpost_state]
  · simp [abort_cancellation_request, senddelete_state]
  · simp [accept_mca, sendpost_state]

/-- Claim C6: the debug flag is observability-only: two clients built
from the same credentials and base url but opposite debug flags issue
exactly the same request from every public method, for every choice of
arguments and every network oracle. -/
theorem c6_debug_observability_only (u p bu : String)
    (net : Request → Response) (d pc cust tid oldpc newpc dreq : String)
    (pinfo : List (String × JVal)) (qty : Int)
    (pd cn rf : String) (hoa : List (String × JVal)) (ia : Bool)
    (eu iso ap : String) (ba : List (String × JVal)) (cs : List JVal)
    (dacc fn sn ph em l1 pcde : String) (cid : Int) :
    (get_all_customers (CascadeAPI.init u p bu true) net).1 =
      (get_all_customers (CascadeAPI.init u p bu false) net).1
    ∧ (get_customer (CascadeAPI.init u p bu true) d net).1 =
      (get_customer (CascadeAPI.init u p bu false) d net).1
    ∧ (get_customer_tenant (CascadeAPI.init u p bu true) d net).1 =
      (get_customer_tenant (CascadeAPI.init u p bu false) d net).1
    ∧ (get_customer_mca (CascadeAPI.init u p bu true) d net).1 =
      (get_customer_mca (CascadeAPI.init u p bu false) d net).1
    ∧ (get_customer_subscriptions (CascadeAPI.init u p bu true) d net).1 =
      (get_customer_subscriptions (CascadeAPI.init u p bu false) d net).1
    ∧ (get_customer_subscription (CascadeAPI.init u p bu true) d pc net).1 =
      (get_customer_subscription (CascadeAPI.init u p bu false) d pc net).1
    ∧ (get_cancellation_request (CascadeAPI.init u p bu true) d pc net).1 =
      (get_cancellation_request (CascadeAPI.init u p bu false) d pc net).1
    ∧ (create_customer (CascadeAPI.init u p bu true) pd cn rf hoa ia eu
        iso ap ba cs net).1 =
      (create_customer (CascadeAPI.init u p bu false) pd cn rf hoa ia eu
        iso ap ba cs net).1
    ∧ (create_tenant (CascadeAPI.init u p bu true) cust tid net).1 =
      (create_tenant (CascadeAPI.init u p bu false) cust tid net).1
    ∧ (create_subscription (CascadeAPI.init u p bu true) cust pinfo net).1 =
      (create_subscription (CascadeAPI.init u p bu false) cust pinfo net).1
    ∧ (update_subscription (CascadeAPI.init u p bu true) cust pc qty net).1 =
      (update_subscription (CascadeAPI.init u p bu false) cust pc qty net).1
    ∧ (upgrade_subscription (CascadeAPI.init u p bu true) cust oldpc newpc
        net).1 =
      (upgrade_subscription (CascadeAPI.init u p bu false) cust oldpc newpc
        net).1
    ∧ (submit_cancellation_request (CascadeAPI.init u p bu true) cust pc
        dreq net).1 =
      (submit_cancellation_request (CascadeAPI.init u p bu false) cust pc
        dreq net).1
    ∧ (abort_cancellation_request (CascadeAPI.init u p bu true) cust pc
        net).1 =
      (abort_cancellation_request (CascadeAPI.init u p bu false) cust pc
        net).1
    ∧ (accept_mca (CascadeAPI.init u p bu true) cust dacc fn sn ph em l1
        pcde cid net).1 =
      (accept_mca (CascadeAPI.init u p bu false) cust dacc fn sn ph em l1
        pcde cid net).1 :=
  ⟨rfl, rfl, rfl, rfl, rfl, rfl, rfl, rfl, rfl, rfl, rfl, rfl, rfl, rfl,
   rfl⟩

/-- Claim C10: every endpoint a public method passes to a request helper
is non-empty and already begins with '/': its first character is '/',
normalization leaves it unchanged, and consequently every public method
always succeeds in building its request (the first-character inspection
cannot fail). -/
theorem c10_public_endpoints_safe (api : CascadeAPI)
    (net : Request → Response) (d pc cust tid oldpc newpc dreq : String)
    (pinfo : List (String × JVal)) (qty : Int)
    (pd cn rf : String) (hoa : List (String × JVal)) (ia : Bool)
    (eu iso ap : String) (ba : List (String × JVal)) (cs : List JVal)
    (dacc fn sn ph em l1 pcde : String) (cid : Int) :
    ("/Customers" : String).data.head? = some '/'
    ∧ normEndpoint "/Customers" = some "/Customers"
    ∧ ("/customers" : String).data.head? = some '/'
    ∧ normEndpoint "/customers" = some "/customers"
    ∧ ("/Customers/" ++ d).data.head? = some '/'
    ∧ normEndpoint ("/Customers/" ++ d) = some ("/Customers/" ++ d)
    ∧ ("/customers/" ++ d ++ "/MicrosoftTenantAssociation").data.head? =
        some '/'
    ∧ normEndpoint ("/customers/" ++ d ++ "/MicrosoftTenantAssociation") =
        some ("/customers/" ++ d ++ "/MicrosoftTenantAssociation")
    ∧ ("/customers/" ++ d ++ "/McaAcceptance").data.head? = some '/'
    ∧ normEndpoint ("/customers/" ++ d ++ "/McaAcceptance") =
        some ("/customers/" ++ d ++ "/McaAcceptance")
    ∧ ("/customers/" ++ d ++ "/subscriptions").data.head? = some '/'
    ∧ normEndpoint ("/customers/" ++ d ++ "/subscriptions") =
        some ("/customers/" ++ d ++ "/subscriptions")
    ∧ ("/customers/" ++ d ++ "/subscriptions/" ++ pc).data.head? = some '/'
    ∧ normEndpoint ("/customers/" ++ d ++ "/subscriptions/" ++ pc) =
        some ("/customers/" ++ d ++ "/subscriptions/" ++ pc)
    ∧ ("/customers/" ++ d ++ "/subscriptions/" ++ pc
        ++ "/cancellation-request").data.head? = some '/'
    ∧ normEndpoint ("/customers/" ++ d ++ "/subscriptions/" ++ pc
        ++ "/cancellation-request") =
        some ("/customers/" ++ d ++ "/subscriptions/" ++ pc
          ++ "/cancellation-request")
    ∧ ("/customers/" ++ cust ++ "/MicrosoftTenant/" ++ tid
        ++ ".onmicrosoft.com").data.head? = some '/'
    ∧ normEndpoint ("/customers/" ++ cust ++ "/MicrosoftTenant/" ++ tid
        ++ ".onmicrosoft.com") =
        some ("/customers/" ++ cust ++ "/MicrosoftTenant/" ++ tid
          ++ ".onmicrosoft.com")
    ∧ (get_all_customers api net).1.isSome = true
    ∧ (get_customer api d net).1.isSome = true
    ∧ (get_customer_tenant api d net).1.isSome = true
    ∧ (get_customer_mca api d net).1.isSome = true
    ∧ (get_customer_subscriptions api d net).1.isSome = true
    ∧ (get_customer_subscription api d pc net).1.isSome = true
    ∧ (get_cancellation_request api d pc net).1.isSome = true
    ∧ (create_customer api pd cn rf hoa ia eu iso ap ba cs net).1.isSome =
        true
    ∧ (create_tenant api cust tid net).1.isSome = true
    ∧ (create_subscription api cust pinfo net).1.isSome = true
    ∧ (update_subscription api cust pc qty net).1.isSome = true
    ∧ (upgrade_subscription api cust oldpc newpc net).1.isSome = true
    ∧ (submit_cancellation_request api cust pc dreq net).1.isSome = true
    ∧ (abort_cancellation_request api cust pc net).1.isSome = true
    ∧ (accept_mca api cust dacc fn sn ph em l1 pcde cid net).1.isSome =
        true := by
  refine ⟨rfl, norm_Customers, rfl, norm_customers, head_Customers_of d,
    norm_Customers_of d, head_tenant_assoc d, norm_tenant_assoc d,
    head_mca_of d, norm_mca_of d, head_subs_of d, norm_subs_of d,
    head_sub_of d pc, norm_sub_of d pc, head_cancel_of d pc,
    norm_cancel_of d pc, head_tenant_create cust tid,
    norm_tenant_create cust tid,
    ?_, ?_, ?_, ?_, ?_, ?_, ?_, ?_, ?_, ?_, ?_, ?_, ?_, ?_, ?_⟩
  · simp [get_all_customers, sendget_fst, sendgetRequest, norm_Customers]
  · simp [get_customer, sendget_fst, sendgetRequest, norm_Customers_of]
  · simp [get_customer_tenant, sendget_fst, sendgetRequest,
      norm_tenant_assoc]
  · simp [get_customer_mca, sendget_fst, sendgetRequest, norm_mca_of]
  · simp [get_customer_subscriptions, sendget_fst, sendgetRequest,
      norm_subs_of]
  · simp [get_customer_subscription, sendget_fst, sendgetRequest,
      norm_sub_of]
  · simp [get_cancellation_request, sendget_fst, sendgetRequest,
      norm_cancel_of]
  · simp [create_customer, sendpost_fst, sendpostRequest, norm_customers]
  · simp [create_tenant, sendpost_fst, sendpostRequest, norm_tenant_create]
  · simp [create_subscription, sendpost_fst, sendpostRequest, norm_subs_of]
  · simp [update_subscription, sendpost_fst, sendpostRequest, norm_sub_of]
  · simp [upgrade_subscription, sendpost_fst, sendpostRequest, norm_sub_of]
  · simp [submit_cancellation_request, sendpost_fst, sendpostRequest,
      norm_cancel_of]
  · simp [abort_cancellation_request, senddelete_fst, senddeleteRequest,
      norm_cancel_of]
  · simp [accept_mca, sendpost_fst, sendpostRequest, norm_mca_of]

end Cascade
